import Mathlib

/-!
Shallow embedding of `run_integration_tests.py` (job-platform integration-test
orchestrator) and proofs about it.

The script runs a sequence of phases: dependency checks, environment-file
checks, `docker-compose down`+`up` (start), readiness polling of services,
per-module test execution, `docker-compose down` (cleanup), and a summary.
External commands are modelled by their observable outcome (`CmdResult`,
`ExecOutcome`, `ProbeOutcome`); the orchestration logic itself is translated
function by function from the Python source.
-/

namespace JobPlatform

/-- Outcome of one `subprocess.run` invocation of an external command, as the
Python code can observe it. `ok` is exit code 0; `fail` is a nonzero exit
code, which with `check=True` raises `subprocess.CalledProcessError`;
`oserror` is an OS-level failure to launch the command (for example
`FileNotFoundError` when the executable is missing — the source itself
catches this exception class in `check_dependencies`, lines 63 and 76, so it
is a failure mode the code acknowledges). -/
inductive CmdResult where
  | ok : CmdResult
  | fail : String → CmdResult
  | oserror : String → CmdResult
deriving DecidableEq, Repr

/-- An uncaught Python exception escaping a method. -/
inductive PyExn where
  | osError : String → PyExn
deriving DecidableEq, Repr

/-- Outcome of one invocation of a service's readiness check (`_check_database`
or `_check_api` in the source): it returns `true`, returns `false`, or raises. -/
inductive ProbeOutcome where
  | ready : ProbeOutcome
  | notReady : ProbeOutcome
  | exn : String → ProbeOutcome
deriving DecidableEq, Repr

/-- A service to be probed, as one entry of the `services` dict in
`wait_for_services` (source lines 154-165): a display name and the check
function. The check is modelled as a function of the attempt number (the
source's `attempts` counter), giving the outcome of the k-th invocation. -/
structure ServiceSpec where
  name : String
  check : Nat → ProbeOutcome

/-- Outcome of running one module's test command via `subprocess.run`
(source lines 268-275): normal completion with exit code and captured
output, `subprocess.TimeoutExpired` (carrying the output produced before the
timeout, which the source does not read), or any other exception. -/
inductive ExecOutcome where
  | completed : Int → String → String → ExecOutcome
  | timedOut : String → String → ExecOutcome
  | raised : String → ExecOutcome
deriving DecidableEq, Repr

/-- One entry of the `submodules` list in `run_submodule_tests`
(source lines 219-242). -/
structure ModuleSpec where
  name : String
  test_command : List String
  env : List (String × String)

/-- The per-module result dict built by `_run_single_test`
(source lines 255-260): keys `name`, `success`, `output`, `error`. -/
structure TestResult where
  name : String
  success : Bool
  output : String
  error : String
deriving DecidableEq, Repr

/-- Invocation flags parsed in `main` (source lines 416-424). -/
structure RunConfig where
  verbose : Bool
  no_cleanup : Bool
deriving DecidableEq, Repr

/-- The diagnostic message stored on `subprocess.TimeoutExpired`
(source line 294). -/
def timeoutMsg : String := "Тесты превысили время ожидания (10 мин)"

/-- Translation of `_run_single_test` (source lines 253-300). The result dict
starts as `{name, success=False, output="", error=""}`; on normal completion
`success` is `returncode == 0` and `output`/`error` are the captured
stdout/stderr; on `TimeoutExpired` only `error` is set to `timeoutMsg`; on any
other exception only `error` is set to `str(e)`. -/
def run_single_test (m : ModuleSpec) (outcome : ExecOutcome) : TestResult :=
  match outcome with
  | .completed code out err => ⟨m.name, code == 0, out, err⟩
  | .timedOut _ _ => ⟨m.name, false, "", timeoutMsg⟩
  | .raised msg => ⟨m.name, false, "", msg⟩

/-- Translation of the loop of `run_submodule_tests` (source lines 244-251):
each submodule is run in order and its result appended, unconditionally.
The source's hardcoded `submodules` list is one instantiation of `mods`;
`exec` gives each module's subprocess outcome. -/
def run_submodule_tests (exec : ModuleSpec → ExecOutcome) (mods : List ModuleSpec) :
    List TestResult :=
  mods.map (fun m => run_single_test m (exec m))

/-- Translation of the tally loop of `print_summary` (source lines 348-361):
`total_passed` and `total_failed` accumulated over the results in order. -/
def summarize (results : List TestResult) : Nat × Nat :=
  results.foldl (fun acc r => if r.success then (acc.1 + 1, acc.2) else (acc.1, acc.2 + 1))
    (0, 0)

/-- Translation of the verdict of `print_summary` (source lines 368-373):
returns `True` exactly when `total_failed == 0`. -/
def print_summary (results : List TestResult) : Bool :=
  (summarize results).2 == 0

/-- Translation of the tail of `run` (source lines 403-411): overall success
is `print_summary results and cleanup_success`. -/
def final_status (results : List TestResult) (cleanup_success : Bool) : Bool :=
  print_summary results && cleanup_success

/-- Translation of `main` (source line 427): `sys.exit(0 if success else 1)`. -/
def exit_code (success : Bool) : Nat :=
  if success then 0 else 1

/-- Translation of `start_test_environment` (source lines 117-148),
instrumented with an abstract count of live stacks (`stack`). The method
first runs `docker-compose down -v --remove-orphans` (removing any existing
stack), then `docker-compose up -d` (creating one). Both run with
`check=True` under one `try` whose `except subprocess.CalledProcessError`
returns `False`, so a nonzero exit of the teardown aborts the start before
the `up` is attempted; an OS-level launch error is uncaught. -/
def start_test_environment (stack : Nat) (down up : CmdResult) :
    Except PyExn Bool × Nat :=
  match down with
  | .fail _ => (.ok false, stack)
  | .oserror m => (.error (.osError m), stack)
  | .ok =>
    match up with
    | .ok => (.ok true, 1)
    | .fail _ => (.ok false, 0)
    | .oserror m => (.error (.osError m), 0)

/-- Translation of `cleanup_environment` (source lines 302-322), paired with
the number of times the teardown command is invoked. With `no_cleanup` set it
returns `True` without running anything. Otherwise it runs
`docker-compose down -v` with `check=True`, catching only
`subprocess.CalledProcessError` (returning `False`); an OS-level launch
error propagates to the caller. -/
def cleanup_environment (no_cleanup : Bool) (down : CmdResult) :
    Except PyExn Bool × Nat :=
  if no_cleanup then (.ok true, 0)
  else
    match down with
    | .ok => (.ok true, 1)
    | .fail _ => (.ok false, 1)
    | .oserror m => (.error (.osError m), 1)

/-- Translation of the inner `while` loop of `wait_for_services`
(source lines 174-185) for one service. `elapsed` models
`time.time() - start_time` (shared across services; check invocations are
treated as instantaneous, the 5-second `time.sleep(5)` after a `False` or an
exception advances it). Returns the elapsed time at which the service became
ready (`some`) or `none` on deadline expiry, together with the value of the
source's `attempts` counter, i.e. how many times the check was invoked. -/
def waitService (check : Nat → ProbeOutcome) (timeout : Int) (elapsed attempts : Nat) :
    Option Nat × Nat :=
  if h : (elapsed : Int) < timeout then
    match check (attempts + 1) with
    | .ready => (some elapsed, attempts + 1)
    | .notReady => waitService check timeout (elapsed + 5) (attempts + 1)
    | .exn _ => waitService check timeout (elapsed + 5) (attempts + 1)
  else (none, attempts)
termination_by (timeout - (elapsed : Int)).toNat
decreasing_by
  all_goals omega

/-- Translation of the outer `for` loop of `wait_for_services`
(source lines 169-191): services are probed in order against the shared
deadline; on the first service that is not ready when the deadline expires
the loop returns failure at once (subsequent services are not probed).
Returns the overall verdict, the list of probed services with the number of
check invocations each received, and the elapsed time afterwards. -/
def waitAll (svcs : List ServiceSpec) (timeout : Int) (elapsed : Nat) :
    Bool × List (String × Nat) × Nat :=
  match svcs with
  | [] => (true, [], elapsed)
  | s :: rest =>
    match waitService s.check timeout elapsed 0 with
    | (some e, n) =>
      match waitAll rest timeout e with
      | (okr, l, e2) => (okr, (s.name, n) :: l, e2)
    | (none, n) => (false, [(s.name, n)], elapsed)

/-- Translation of `wait_for_services` (source lines 150-193): runs the
probing loop from elapsed time 0. The source dumps container logs
(`_show_container_logs`, line 189) exactly when the verdict is failure. -/
def wait_for_services (svcs : List ServiceSpec) (timeout : Int) :
    Bool × List (String × Nat) :=
  match waitAll svcs timeout 0 with
  | (okr, l, _) => (okr, l)

/-- Observable events of one `run` invocation: how many times the cleanup
phase (`cleanup_environment`) was entered, how many times the teardown
command of the cleanup phase was invoked, whether the test executor ran,
whether container logs were dumped, which services were probed (with check
counts), and the collected test results. -/
structure RunTrace where
  cleanup_calls : Nat
  stop_invocations : Nat
  executor_invoked : Bool
  logs_dumped : Bool
  probed : List (String × Nat)
  results : List TestResult
deriving DecidableEq, Repr

/-- The trace of a run that ended before the readiness phase. -/
def emptyTrace : RunTrace := ⟨0, 0, false, false, [], []⟩

/-- The outcomes of the external world that one `run` invocation can
encounter: results of the dependency and environment-file checks, of the two
docker-compose commands in `start_test_environment`, the configured services
and modules (the source hardcodes two services and one module; the loops are
uniform in them), each module's subprocess outcome, and the result of the
cleanup teardown command. -/
structure RunWorld where
  deps_ok : Bool
  env_files_ok : Bool
  start_down : CmdResult
  start_up : CmdResult
  services : List ServiceSpec
  modules : List ModuleSpec
  exec : ModuleSpec → ExecOutcome
  cleanup_down : CmdResult

/-- Translation of `run` (source lines 375-411): dependency check, then
environment-file check (each returning `False` immediately on failure), then
`start_test_environment` (returning `False` immediately on failure — without
cleanup), then `wait_for_services(180)` (on failure: cleanup, then `False`),
then `run_submodule_tests`, `cleanup_environment`, `print_summary`, and the
conjunction of test success and cleanup success. The paired `RunTrace`
records the observable events. -/
def run (cfg : RunConfig) (w : RunWorld) : Except PyExn Bool × RunTrace :=
  if !w.deps_ok then (.ok false, emptyTrace)
  else if !w.env_files_ok then (.ok false, emptyTrace)
  else
    match start_test_environment 0 w.start_down w.start_up with
    | (.error e, _) => (.error e, emptyTrace)
    | (.ok false, _) => (.ok false, emptyTrace)
    | (.ok true, _) =>
      match wait_for_services w.services 180 with
      | (false, probed) =>
        match cleanup_environment cfg.no_cleanup w.cleanup_down with
        | (.error e, stops) => (.error e, ⟨1, stops, false, true, probed, []⟩)
        | (.ok _, stops) => (.ok false, ⟨1, stops, false, true, probed, []⟩)
      | (true, probed) =>
        let results := run_submodule_tests w.exec w.modules
        match cleanup_environment cfg.no_cleanup w.cleanup_down with
        | (.error e, stops) => (.error e, ⟨1, stops, true, false, probed, results⟩)
        | (.ok cok, stops) =>
          (.ok (final_status results cok), ⟨1, stops, true, false, probed, results⟩)

/-- Replaces every exception outcome of a check by a plain `False` return;
used to state that the probing loop treats the two identically. -/
def desugarCheck (check : Nat → ProbeOutcome) : Nat → ProbeOutcome :=
  fun k =>
    match check k with
    | .exn _ => .notReady
    | o => o

/-- Translation of `main` (source lines 414-427) applied to one run: the
process exit code, `0` on overall success and `1` otherwise; `none` models
the interpreter dying on an uncaught exception. -/
def main_exit (cfg : RunConfig) (w : RunWorld) : Option Nat :=
  match (run cfg w).1 with
  | .ok b => some (exit_code b)
  | .error _ => none

/-- Module "alpha" of the end-to-end scenario of the spec (section 8). -/
def alphaMod : ModuleSpec := ⟨"alpha", ["python", "-m", "pytest"], []⟩

/-- Module "beta" of the end-to-end scenario of the spec (section 8). -/
def betaMod : ModuleSpec := ⟨"beta", ["python", "-m", "pytest"], []⟩

/-- Subprocess outcomes of the end-to-end scenario: module "alpha" exits 0,
module "beta" exits 1. -/
def e2eExec : ModuleSpec → ExecOutcome :=
  fun m => .completed (if m.name = "alpha" then 0 else 1) "" ""

/-- World of the end-to-end scenario: all checks pass, the environment
starts, no services are configured, modules "alpha" and "beta" run, cleanup
succeeds. -/
def e2eWorld : RunWorld :=
  ⟨true, true, .ok, .ok, [], [alphaMod, betaMod], e2eExec, .ok⟩

/-- World in which `docker-compose up -d` exits nonzero during start and
everything else would succeed. -/
def startFailWorld : RunWorld :=
  ⟨true, true, .ok, .fail "docker-compose up exited 1", [],
    [alphaMod], e2eExec, .ok⟩

/-- World in which the single configured service answers not-ready on every
check, so the readiness phase times out. -/
def readinessFailWorld : RunWorld :=
  ⟨true, true, .ok, .ok, [⟨"test_api", fun _ => .notReady⟩],
    [alphaMod], e2eExec, .ok⟩

/-- World in which the single configured service raises on every check, so
the readiness phase times out. -/
def readinessNeverWorld : RunWorld :=
  ⟨true, true, .ok, .ok, [⟨"test_db", fun _ => .exn "connection refused"⟩],
    [alphaMod], e2eExec, .ok⟩

/-! Helper lemmas shared by the claim theorems. -/

/-- The tally fold of `print_summary`, run from an arbitrary accumulator,
adds the number of passed and the number of failed results. -/
theorem summarize_foldl (rs : List TestResult) (p f : Nat) :
    rs.foldl (fun acc r => if r.success then (acc.1 + 1, acc.2) else (acc.1, acc.2 + 1))
      (p, f)
      = (p + rs.countP (fun r => r.success), f + rs.countP (fun r => !r.success)) := by
  induction rs generalizing p f with
  | nil => simp
  | cons r rs ih =>
    by_cases hr : r.success <;>
      simp [List.countP_cons, hr, ih] <;> omega

/-- The passed tally is the number of results with `success = true`. -/
theorem summarize_fst (rs : List TestResult) :
    (summarize rs).1 = rs.countP (fun r => r.success) := by
  unfold summarize
  rw [summarize_foldl]
  simp

/-- The failed tally is the number of results with `success = false`. -/
theorem summarize_snd (rs : List TestResult) :
    (summarize rs).2 = rs.countP (fun r => !r.success) := by
  unfold summarize
  rw [summarize_foldl]
  simp

/-- When the deadline has already elapsed, the polling loop exits at once
without invoking the check. -/
theorem waitService_deadline (check : Nat → ProbeOutcome) (timeout : Int)
    (elapsed attempts : Nat) (h : ¬ ((elapsed : Int) < timeout)) :
    waitService check timeout elapsed attempts = (none, attempts) := by
  unfold waitService
  simp [h]

/-- Unfolding step of the polling loop: a check returning ready ends the
loop with the current elapsed time. -/
theorem waitService_step_ready (check : Nat → ProbeOutcome) (timeout : Int)
    (elapsed attempts : Nat) (h : (elapsed : Int) < timeout)
    (heq : check (attempts + 1) = .ready) :
    waitService check timeout elapsed attempts = (some elapsed, attempts + 1) := by
  conv_lhs => unfold waitService
  rw [dif_pos h, heq]

/-- Unfolding step of the polling loop: a check returning not-ready sleeps
one interval and retries. -/
theorem waitService_step_notReady (check : Nat → ProbeOutcome) (timeout : Int)
    (elapsed attempts : Nat) (h : (elapsed : Int) < timeout)
    (heq : check (attempts + 1) = .notReady) :
    waitService check timeout elapsed attempts
      = waitService check timeout (elapsed + 5) (attempts + 1) := by
  conv_lhs => unfold waitService
  rw [dif_pos h, heq]

/-- Unfolding step of the polling loop: a check raising an exception sleeps
one interval and retries, exactly as a not-ready return. -/
theorem waitService_step_exn (check : Nat → ProbeOutcome) (timeout : Int)
    (elapsed attempts : Nat) (msg : String) (h : (elapsed : Int) < timeout)
    (heq : check (attempts + 1) = .exn msg) :
    waitService check timeout elapsed attempts
      = waitService check timeout (elapsed + 5) (attempts + 1) := by
  conv_lhs => unfold waitService
  rw [dif_pos h, heq]

/-- A service whose check never returns ready is eventually reported as
timed out by the polling loop. -/
theorem waitService_never (check : Nat → ProbeOutcome) (timeout : Int)
    (elapsed attempts : Nat) :
    (∀ k, check k ≠ .ready) →
    ∃ n, waitService check timeout elapsed attempts = (none, n) := by
  induction elapsed, attempts using waitService.induct check timeout with
  | case1 e a h heq =>
    intro hn
    exact absurd heq (hn _)
  | case2 e a h heq ih =>
    intro hn
    obtain ⟨n, hrec⟩ := ih hn
    exact ⟨n, (waitService_step_notReady check timeout e a h heq).trans hrec⟩
  | case3 e a h msg heq ih =>
    intro hn
    obtain ⟨n, hrec⟩ := ih hn
    exact ⟨n, (waitService_step_exn check timeout e a msg h heq).trans hrec⟩
  | case4 e a h =>
    intro _
    exact ⟨a, waitService_deadline check timeout e a h⟩

/-- The `attempts` counter never decreases across the polling loop. -/
theorem waitService_attempts_le (check : Nat → ProbeOutcome) (timeout : Int)
    (elapsed attempts : Nat) :
    ∀ o n, waitService check timeout elapsed attempts = (o, n) → attempts ≤ n := by
  induction elapsed, attempts using waitService.induct check timeout with
  | case1 e a h heq =>
    intro o n hres
    rw [waitService_step_ready check timeout e a h heq] at hres
    cases hres
    omega
  | case2 e a h heq ih =>
    intro o n hres
    rw [waitService_step_notReady check timeout e a h heq] at hres
    have := ih o n hres
    omega
  | case3 e a h msg heq ih =>
    intro o n hres
    rw [waitService_step_exn check timeout e a msg h heq] at hres
    have := ih o n hres
    omega
  | case4 e a h =>
    intro o n hres
    rw [waitService_deadline check timeout e a h] at hres
    cases hres
    omega

/-- When the polling loop reports a timeout after `n` attempts, the elapsed
time at the moment of the report (one 5-second sleep per attempt made inside
this call) had reached the deadline: nothing but deadline expiry produces the
timeout verdict. -/
theorem waitService_none_deadline (check : Nat → ProbeOutcome) (timeout : Int)
    (elapsed attempts : Nat) :
    ∀ n, waitService check timeout elapsed attempts = (none, n) →
      ¬ ((elapsed : Int) + 5 * ((n : Int) - (attempts : Int)) < timeout) := by
  induction elapsed, attempts using waitService.induct check timeout with
  | case1 e a h heq =>
    intro n hres
    rw [waitService_step_ready check timeout e a h heq] at hres
    simp at hres
  | case2 e a h heq ih =>
    intro n hres
    rw [waitService_step_notReady check timeout e a h heq] at hres
    have hle := waitService_attempts_le check timeout (e + 5) (a + 1) none n hres
    have hmain := ih n hres
    push_cast at hmain ⊢
    omega
  | case3 e a h msg heq ih =>
    intro n hres
    rw [waitService_step_exn check timeout e a msg h heq] at hres
    have hle := waitService_attempts_le check timeout (e + 5) (a + 1) none n hres
    have hmain := ih n hres
    push_cast at hmain ⊢
    omega
  | case4 e a h =>
    intro n hres
    rw [waitService_deadline check timeout e a h] at hres
    cases hres
    omega

/-- The polling loop is blind to whether a check reported not-ready by
returning `False` or by raising: its result is unchanged when every raised
exception is replaced by a `False` return. -/
theorem waitService_desugar (check : Nat → ProbeOutcome) (timeout : Int)
    (elapsed attempts : Nat) :
    waitService (desugarCheck check) timeout elapsed attempts
      = waitService check timeout elapsed attempts := by
  induction elapsed, attempts using waitService.induct check timeout with
  | case1 e a h heq =>
    rw [waitService_step_ready check timeout e a h heq,
      waitService_step_ready (desugarCheck check) timeout e a h
        (by simp [desugarCheck, heq])]
  | case2 e a h heq ih =>
    rw [waitService_step_notReady check timeout e a h heq,
      waitService_step_notReady (desugarCheck check) timeout e a h
        (by simp [desugarCheck, heq])]
    exact ih
  | case3 e a h msg heq ih =>
    rw [waitService_step_exn check timeout e a msg h heq,
      waitService_step_notReady (desugarCheck check) timeout e a h
        (by simp [desugarCheck, heq])]
    exact ih
  | case4 e a h =>
    rw [waitService_deadline check timeout e a h,
      waitService_deadline (desugarCheck check) timeout e a h]

/-- The probing loop on an empty service list succeeds at once. -/
theorem waitAll_nil (t : Int) (e : Nat) : waitAll [] t e = (true, [], e) := rfl

/-- Definitional unfolding of the probing loop on a non-empty service list. -/
theorem waitAll_cons (s : ServiceSpec) (rest : List ServiceSpec) (t : Int) (e : Nat) :
    waitAll (s :: rest) t e
      = match waitService s.check t e 0 with
        | (some e1, n) =>
          match waitAll rest t e1 with
          | (okr, l, e2) => (okr, (s.name, n) :: l, e2)
        | (none, n) => (false, [(s.name, n)], e) := rfl

/-- Unfolding of the probing loop when the head service becomes ready. -/
theorem waitAll_cons_ready (s : ServiceSpec) (rest : List ServiceSpec) (t : Int)
    (e e1 n : Nat) (hs : waitService s.check t e 0 = (some e1, n)) :
    waitAll (s :: rest) t e
      = ((waitAll rest t e1).1, (s.name, n) :: (waitAll rest t e1).2.1,
          (waitAll rest t e1).2.2) := by
  rw [waitAll_cons, hs]

/-- Unfolding of the probing loop when the head service times out: the loop
aborts at once, reporting only that service as probed. -/
theorem waitAll_cons_none (s : ServiceSpec) (rest : List ServiceSpec) (t : Int)
    (e n : Nat) (hs : waitService s.check t e 0 = (none, n)) :
    waitAll (s :: rest) t e = (false, [(s.name, n)], e) := by
  rw [waitAll_cons, hs]

/-- Probing a concatenation whose first block fully succeeds continues into
the second block with the elapsed time the first block reached. -/
theorem waitAll_append_ok (ys : List ServiceSpec) (t : Int) :
    ∀ (xs : List ServiceSpec) (e : Nat) (l : List (String × Nat)) (e1 : Nat),
      waitAll xs t e = (true, l, e1) →
      waitAll (xs ++ ys) t e
        = ((waitAll ys t e1).1, l ++ (waitAll ys t e1).2.1, (waitAll ys t e1).2.2) := by
  intro xs
  induction xs with
  | nil =>
    intro e l e1 hxs
    rw [waitAll_nil] at hxs
    cases hxs
    simp
  | cons s rest ih =>
    intro e l e1 hxs
    rcases hs : waitService s.check t e 0 with ⟨o, n⟩
    cases o with
    | none =>
      rw [waitAll_cons_none s rest t e n hs] at hxs
      simp at hxs
    | some e2 =>
      rw [waitAll_cons_ready s rest t e e2 n hs] at hxs
      rcases hw : waitAll rest t e2 with ⟨ok1, l1, e3⟩
      rw [hw] at hxs
      simp only at hxs
      cases hxs
      rw [List.cons_append, waitAll_cons_ready s (rest ++ ys) t e e2 n hs,
        ih e2 l1 e1 hw]
      simp

/-- A head service whose check never returns ready makes the probing loop
fail at once, without probing the remaining services. -/
theorem waitAll_never_head (s : ServiceSpec) (rest : List ServiceSpec) (t : Int)
    (e : Nat) (hnever : ∀ k, s.check k ≠ .ready) :
    ∃ n, waitAll (s :: rest) t e = (false, [(s.name, n)], e) := by
  obtain ⟨n, hs⟩ := waitService_never s.check t e 0 hnever
  exact ⟨n, waitAll_cons_none s rest t e n hs⟩

/-! Claim theorems. -/

/-- C4: every module produces exactly one TestResult, in order, regardless of
its outcome; a module that times out or raises yields a result with
`success = false` and the captured diagnostic message, and no module is
dropped because a sibling failed. -/
theorem one_result_per_module :
    ∀ (exec : ModuleSpec → ExecOutcome) (mods : List ModuleSpec),
      (run_submodule_tests exec mods).length = mods.length ∧
      ∀ (i : Nat) (h : i < mods.length),
        ∃ r, (run_submodule_tests exec mods)[i]? = some r ∧
          r.name = (mods.get ⟨i, h⟩).name ∧
          (∀ out err, exec (mods.get ⟨i, h⟩) = .timedOut out err →
            r.success = false ∧ r.error = timeoutMsg) ∧
          (∀ msg, exec (mods.get ⟨i, h⟩) = .raised msg →
            r.success = false ∧ r.error = msg) := by
  intro exec mods
  constructor
  · simp [run_submodule_tests]
  · intro i h
    refine ⟨run_single_test (mods.get ⟨i, h⟩) (exec (mods.get ⟨i, h⟩)), ?_, ?_, ?_, ?_⟩
    · simp [run_submodule_tests, List.getElem?_eq_getElem, h]
    · cases hx : exec (mods.get ⟨i, h⟩) <;> simp [run_single_test, hx]
    · intro out err heq
      rw [heq]
      exact ⟨rfl, rfl⟩
    · intro msg heq
      rw [heq]
      exact ⟨rfl, rfl⟩

/-- C4 witness: a three-module configuration in which the first module
passes, the second times out and the third raises, instantiated at index 1. -/
theorem one_result_per_module_witness :
    (1 : Nat) < ([⟨"a", ["t"], []⟩, ⟨"b", ["t"], []⟩, ⟨"c", ["t"], []⟩] :
        List ModuleSpec).length ∧
    ∃ r, (run_submodule_tests
        (fun m => if m.name = "a" then .completed 0 "ok" ""
          else if m.name = "b" then .timedOut "partial" "" else .raised "boom")
        [⟨"a", ["t"], []⟩, ⟨"b", ["t"], []⟩, ⟨"c", ["t"], []⟩])[1]? = some r ∧
      r.name = (([⟨"a", ["t"], []⟩, ⟨"b", ["t"], []⟩, ⟨"c", ["t"], []⟩] :
          List ModuleSpec).get ⟨1, by decide⟩).name ∧
      (∀ out err,
        (fun (m : ModuleSpec) => if m.name = "a" then ExecOutcome.completed 0 "ok" ""
          else if m.name = "b" then ExecOutcome.timedOut "partial" ""
          else ExecOutcome.raised "boom")
          (([⟨"a", ["t"], []⟩, ⟨"b", ["t"], []⟩, ⟨"c", ["t"], []⟩] :
            List ModuleSpec).get ⟨1, by decide⟩) = .timedOut out err →
        r.success = false ∧ r.error = timeoutMsg) ∧
      (∀ msg,
        (fun (m : ModuleSpec) => if m.name = "a" then ExecOutcome.completed 0 "ok" ""
          else if m.name = "b" then ExecOutcome.timedOut "partial" ""
          else ExecOutcome.raised "boom")
          (([⟨"a", ["t"], []⟩, ⟨"b", ["t"], []⟩, ⟨"c", ["t"], []⟩] :
            List ModuleSpec).get ⟨1, by decide⟩) = .raised msg →
        r.success = false ∧ r.error = msg) :=
  ⟨by decide,
    (one_result_per_module
      (fun m => if m.name = "a" then .completed 0 "ok" ""
        else if m.name = "b" then .timedOut "partial" "" else .raised "boom")
      [⟨"a", ["t"], []⟩, ⟨"b", ["t"], []⟩, ⟨"c", ["t"], []⟩]).2 1 (by decide)⟩

/-- C5: `start_test_environment` tears down any existing stack before bringing
up a fresh one, so from any prior stack count a successful start leaves
exactly one live stack (hence two successive starts also leave one); a
nonzero exit of either the teardown or the bring-up makes the start report
failure, and a teardown failure aborts the start no matter what the bring-up
would have done. -/
theorem env_start_forced_teardown :
    ∀ (stack : Nat) (up : CmdResult) (m : String),
      start_test_environment stack .ok .ok = (.ok true, 1) ∧
      start_test_environment stack (.fail m) up = (.ok false, stack) ∧
      start_test_environment stack .ok (.fail m) = (.ok false, 0) ∧
      (start_test_environment (start_test_environment stack .ok .ok).2 .ok .ok).2 = 1 := by
  intro stack up m
  exact ⟨rfl, rfl, rfl, rfl⟩

/-- C6 counterexample: a module whose test command times out after producing
output yields a TestResult that does not carry that output — the captured
stdout is discarded, refuting the claim that stdout is carried regardless of
outcome. -/
theorem timeout_output_not_carried :
    (run_single_test ⟨"job-bot", ["python", "-m", "pytest"], []⟩
        (.timedOut "collected 5 items" "some warnings")).output
      ≠ "collected 5 items" := by
  decide

/-- C6 amended: on normal completion (any exit code) the TestResult carries
the command's captured stdout and stderr; on timeout or crash the captured
output is discarded — `output` is empty and `error` holds only the
diagnostic message. -/
theorem test_result_output_capture :
    ∀ (m : ModuleSpec) (code : Int) (out err msg : String),
      (run_single_test m (.completed code out err)).output = out ∧
      (run_single_test m (.completed code out err)).error = err ∧
      (run_single_test m (.timedOut out err)).output = "" ∧
      (run_single_test m (.timedOut out err)).error = timeoutMsg ∧
      (run_single_test m (.raised msg)).output = "" ∧
      (run_single_test m (.raised msg)).error = msg := by
  intro m code out err msg
  exact ⟨rfl, rfl, rfl, rfl, rfl, rfl⟩

/-- C8: the probing loop treats a check that raises exactly as one that
returns `False`: its overall result is unchanged when exceptions are replaced
by `False` returns; on an exception (with deadline remaining) it sleeps one
interval and retries; and a timeout verdict arises only once the elapsed time
has reached the deadline. -/
theorem probe_exception_is_not_ready :
    ∀ (check : Nat → ProbeOutcome) (timeout : Int) (elapsed attempts : Nat),
      waitService (desugarCheck check) timeout elapsed attempts
        = waitService check timeout elapsed attempts ∧
      (∀ msg, (elapsed : Int) < timeout → check (attempts + 1) = .exn msg →
        waitService check timeout elapsed attempts
          = waitService check timeout (elapsed + 5) (attempts + 1)) ∧
      (∀ n, waitService check timeout elapsed attempts = (none, n) →
        ¬ ((elapsed : Int) + 5 * ((n : Int) - (attempts : Int)) < timeout)) := by
  intro check timeout elapsed attempts
  exact ⟨waitService_desugar check timeout elapsed attempts,
    fun msg h heq => waitService_step_exn check timeout elapsed attempts msg h heq,
    fun n hres => waitService_none_deadline check timeout elapsed attempts n hres⟩

/-- C8 witness: a check that raises on its first attempt makes the loop
sleep one interval and retry. -/
theorem probe_exception_is_not_ready_witness :
    waitService (fun k => if k = 1 then .exn "ConnectionError" else .ready) 180 0 0
      = waitService (fun k => if k = 1 then .exn "ConnectionError" else .ready) 180 5 1 :=
  (probe_exception_is_not_ready
      (fun k => if k = 1 then .exn "ConnectionError" else .ready) 180 0 0).2.1
    "ConnectionError" (by decide) (by decide)

/-- C9 counterexample: an OS-level error launching the teardown command (the
`except` clause catches only `CalledProcessError`) escapes
`cleanup_environment` as an exception instead of being returned as a boolean,
refuting the claim that stop never propagates an exception. -/
theorem cleanup_oserror_propagates :
    (cleanup_environment false (.oserror "FileNotFoundError: docker-compose")).1
        = .error (.osError "FileNotFoundError: docker-compose") ∧
      ∀ b, (cleanup_environment false
        (.oserror "FileNotFoundError: docker-compose")).1 ≠ .ok b := by
  refine ⟨rfl, ?_⟩
  intro b h
  exact Except.noConfusion h

/-- C9 amended: a failing teardown command (nonzero exit) is captured and
returned as `False` rather than raised, and a succeeding one as `True`; but
an OS-level error launching the command propagates to the caller, because
the handler catches only `subprocess.CalledProcessError`. -/
theorem cleanup_captures_command_failure :
    ∀ (m : String),
      cleanup_environment false .ok = (.ok true, 1) ∧
      cleanup_environment false (.fail m) = (.ok false, 1) ∧
      cleanup_environment false (.oserror m) = (.error (.osError m), 1) := by
  intro m
  exact ⟨rfl, rfl, rfl⟩

/-- C10: with a non-positive deadline the readiness phase fails on any
non-empty service set without invoking a single readiness check (the first
service is reported with zero attempts and the rest are not probed), while
with an empty service set it succeeds immediately. -/
theorem nonpositive_deadline_no_probe :
    ∀ (t : Int), t ≤ 0 →
      ∀ (s : ServiceSpec) (rest : List ServiceSpec),
        waitAll (s :: rest) t 0 = (false, [(s.name, 0)], 0) ∧
        waitAll [] t 0 = (true, [], 0) := by
  intro t ht s rest
  have hs : waitService s.check t 0 0 = (none, 0) :=
    waitService_deadline s.check t 0 0 (by push_cast; omega)
  exact ⟨waitAll_cons_none s rest t 0 0 hs, rfl⟩

/-- C10 witness: deadline 0 with a service that would report ready on its
very first check — it is still reported as timed out with zero checks. -/
theorem nonpositive_deadline_no_probe_witness :
    waitAll [⟨"test_db", fun _ => .ready⟩] 0 0 = (false, [("test_db", 0)], 0) ∧
    waitAll [] (0 : Int) 0 = (true, [], 0) :=
  nonpositive_deadline_no_probe 0 (by decide) ⟨"test_db", fun _ => .ready⟩ []

/-- C2 counterexample: when `docker-compose up -d` fails during start, `run`
returns failure immediately — the cleanup phase is never entered and the
teardown command is never invoked, refuting the claim that an environment
start failure still invokes cleanup. -/
theorem start_failure_skips_cleanup :
    (run ⟨false, false⟩ startFailWorld).1 = .ok false ∧
    (run ⟨false, false⟩ startFailWorld).2.cleanup_calls = 0 ∧
    (run ⟨false, false⟩ startFailWorld).2.stop_invocations = 0 :=
  ⟨rfl, rfl, rfl⟩

/-- C2 amended: a readiness timeout aborts the run with failure and routes
through the cleanup phase before terminating, but an environment start
failure makes `run` return failure immediately, without invoking cleanup. -/
theorem abort_cleanup_routing :
    ∀ (cfg : RunConfig) (w : RunWorld),
      (w.deps_ok = true → w.env_files_ok = true →
        (start_test_environment 0 w.start_down w.start_up).1 = .ok false →
        run cfg w = (.ok false, emptyTrace)) ∧
      (w.deps_ok = true → w.env_files_ok = true →
        w.start_down = .ok → w.start_up = .ok →
        (wait_for_services w.services 180).1 = false →
        (run cfg w).2.cleanup_calls = 1 ∧ (run cfg w).1 ≠ .ok true) := by
  intro cfg w
  obtain ⟨d, ef, sd, su, svcs, mods, ex, cd⟩ := w
  constructor
  · intro hd he hstart
    dsimp only at hd he hstart
    subst hd
    subst he
    rcases hs : start_test_environment 0 sd su with ⟨sr, sn⟩
    rw [hs] at hstart
    dsimp only at hstart
    subst hstart
    simp [run, hs]
  · intro hd he hsd hsu hw
    dsimp only at hd he hsd hsu hw
    subst hd
    subst he
    subst hsd
    subst hsu
    rcases hwa : wait_for_services svcs 180 with ⟨wok, probed⟩
    rw [hwa] at hw
    dsimp only at hw
    subst hw
    rcases hc : cleanup_environment cfg.no_cleanup cd with ⟨cr, stops⟩
    cases cr with
    | ok b =>
      exact ⟨by simp [run, start_test_environment, hwa, hc],
        by simp [run, start_test_environment, hwa, hc]⟩
    | error e =>
      exact ⟨by simp [run, start_test_environment, hwa, hc],
        by simp [run, start_test_environment, hwa, hc]⟩

/-- C2 witness: the amended claim at two concrete worlds — one whose start
fails and one whose only service never becomes ready. -/
theorem abort_cleanup_routing_witness :
    run ⟨false, false⟩ startFailWorld = (.ok false, emptyTrace) ∧
    ((run ⟨false, false⟩ readinessFailWorld).2.cleanup_calls = 1 ∧
      (run ⟨false, false⟩ readinessFailWorld).1 ≠ .ok true) := by
  constructor
  · exact (abort_cleanup_routing ⟨false, false⟩ startFailWorld).1 rfl rfl rfl
  · refine (abort_cleanup_routing ⟨false, false⟩ readinessFailWorld).2 rfl rfl rfl rfl ?_
    obtain ⟨n, h⟩ := waitAll_never_head ⟨"test_api", fun _ => .notReady⟩ [] 180 0
      (by intro k hk; simp at hk)
    simp [readinessFailWorld, wait_for_services, h]

/-- C3: in a run whose earlier services all become ready but whose service
`s` never reports ready before the shared 180-second deadline, the prober
aborts at `s` (services after `s` are not probed), the environment logs are
dumped, the run reports failure, the test executor is never invoked, and the
cleanup teardown is invoked exactly once — zero times if `noCleanup` is
set. -/
theorem readiness_timeout_aborts :
    ∀ (cfg : RunConfig) (w : RunWorld) (pre post : List ServiceSpec) (s : ServiceSpec)
      (lpre : List (String × Nat)) (e1 : Nat),
      w.deps_ok = true → w.env_files_ok = true →
      w.start_down = .ok → w.start_up = .ok →
      w.services = pre ++ s :: post →
      waitAll pre 180 0 = (true, lpre, e1) →
      (∀ k, s.check k ≠ .ready) →
      ∃ n,
        (run cfg w).1 ≠ .ok true ∧
        (run cfg w).2.executor_invoked = false ∧
        (run cfg w).2.results = [] ∧
        (run cfg w).2.logs_dumped = true ∧
        (run cfg w).2.probed = lpre ++ [(s.name, n)] ∧
        (run cfg w).2.stop_invocations = (if cfg.no_cleanup then 0 else 1) := by
  intro cfg w pre post s lpre e1 hd he hsd hsu hsvc hpre hnever
  obtain ⟨d, ef, sd, su, svcs, mods, ex, cd⟩ := w
  dsimp only at hd he hsd hsu hsvc
  subst hd
  subst he
  subst hsd
  subst hsu
  subst hsvc
  obtain ⟨n, hfail⟩ := waitAll_never_head s post 180 e1 hnever
  have hall : waitAll (pre ++ s :: post) 180 0 = (false, lpre ++ [(s.name, n)], e1) := by
    rw [waitAll_append_ok (s :: post) 180 pre 0 lpre e1 hpre, hfail]
  have hwfs : wait_for_services (pre ++ s :: post) 180
      = (false, lpre ++ [(s.name, n)]) := by
    simp [wait_for_services, hall]
  refine ⟨n, ?_⟩
  rcases cfg with ⟨v, nc⟩
  cases nc <;> cases cd <;>
    simp [run, start_test_environment, hwfs, cleanup_environment]

/-- C3 witness: a single service raising "connection refused" on every check;
the run aborts, dumps logs, never runs the executor and tears down once. -/
theorem readiness_timeout_aborts_witness :
    ∃ n,
      (run ⟨false, false⟩ readinessNeverWorld).1 ≠ .ok true ∧
      (run ⟨false, false⟩ readinessNeverWorld).2.executor_invoked = false ∧
      (run ⟨false, false⟩ readinessNeverWorld).2.results = [] ∧
      (run ⟨false, false⟩ readinessNeverWorld).2.logs_dumped = true ∧
      (run ⟨false, false⟩ readinessNeverWorld).2.probed = [("test_db", n)] ∧
      (run ⟨false, false⟩ readinessNeverWorld).2.stop_invocations = 1 :=
  readiness_timeout_aborts ⟨false, false⟩ readinessNeverWorld [] []
    ⟨"test_db", fun _ => .exn "connection refused"⟩ [] 0
    rfl rfl rfl rfl rfl rfl (by intro k hk; simp at hk)

/-- C7: with `noCleanup` set the teardown command is never invoked in any
run, whatever the world does, and the cleanup phase itself always reports
success. -/
theorem no_cleanup_never_stops :
    ∀ (cfg : RunConfig) (w : RunWorld),
      cfg.no_cleanup = true →
      (run cfg w).2.stop_invocations = 0 ∧
      (∀ dc, cleanup_environment true dc = (.ok true, 0)) := by
  intro cfg w hnc
  refine ⟨?_, fun dc => rfl⟩
  rcases cfg with ⟨v, nc⟩
  dsimp only at hnc
  subst hnc
  obtain ⟨d, ef, sd, su, svcs, mods, ex, cd⟩ := w
  cases d
  · rfl
  · cases ef
    · rfl
    · cases sd with
      | fail m => rfl
      | oserror m => rfl
      | ok =>
        cases su with
        | fail m => rfl
        | oserror m => rfl
        | ok =>
          rcases hwa : wait_for_services svcs 180 with ⟨wok, probed⟩
          cases wok <;>
            simp [run, start_test_environment, hwa, cleanup_environment]

/-- C7 witness: `--no-cleanup` on a run whose readiness phase fails — the
teardown is still not invoked and the cleanup phase reports success. -/
theorem no_cleanup_never_stops_witness :
    (run ⟨false, true⟩ readinessFailWorld).2.stop_invocations = 0 ∧
    (∀ dc, cleanup_environment true dc = (.ok true, 0)) :=
  no_cleanup_never_stops ⟨false, true⟩ readinessFailWorld rfl

/-- C1: the Reporter computes `totalPassed` and `totalFailed` as the number
of succeeded and failed results, `allTestsPassed` as `totalFailed == 0`, the
process-level success as `allTestsPassed AND cleanupSucceeded` (exit code 0
exactly when both hold); and in the end-to-end scenario where "alpha" exits
0 and "beta" exits 1 the summary is one passed, one failed, overall failure,
exit code 1. -/
theorem reporter_totals_and_exit :
    (∀ (rs : List TestResult) (cok : Bool),
      (summarize rs).1 = rs.countP (fun r => r.success) ∧
      (summarize rs).2 = rs.countP (fun r => !r.success) ∧
      (print_summary rs = true ↔ (summarize rs).2 = 0) ∧
      final_status rs cok = (print_summary rs && cok) ∧
      (exit_code (final_status rs cok) = 0 ↔ (print_summary rs = true ∧ cok = true))) ∧
    (∀ (cfg : RunConfig) (w : RunWorld) (cok : Bool) (stops : Nat),
      w.deps_ok = true → w.env_files_ok = true →
      w.start_down = .ok → w.start_up = .ok →
      (wait_for_services w.services 180).1 = true →
      cleanup_environment cfg.no_cleanup w.cleanup_down = (.ok cok, stops) →
      (run cfg w).1 = .ok (final_status (run_submodule_tests w.exec w.modules) cok)) ∧
    (summarize (run_submodule_tests e2eExec [alphaMod, betaMod]) = (1, 1) ∧
      (run ⟨false, false⟩ e2eWorld).1 = .ok false ∧
      main_exit ⟨false, false⟩ e2eWorld = some 1) := by
  refine ⟨?_, ?_, by decide, rfl, rfl⟩
  · intro rs cok
    refine ⟨summarize_fst rs, summarize_snd rs, ?_, rfl, ?_⟩
    · simp [print_summary]
    · cases hps : print_summary rs <;> cases cok <;>
        simp [exit_code, final_status, hps]
  · intro cfg w cok stops hd he hsd hsu hw hcl
    obtain ⟨d, ef, sd, su, svcs, mods, ex, cd⟩ := w
    dsimp only at hd he hsd hsu hw hcl ⊢
    subst hd
    subst he
    subst hsd
    subst hsu
    rcases hwa : wait_for_services svcs 180 with ⟨wok, probed⟩
    rw [hwa] at hw
    dsimp only at hw
    subst hw
    simp [run, start_test_environment, hwa, hcl]

/-- C1 witness: the run-to-reporter glue at the end-to-end world. -/
theorem reporter_totals_and_exit_witness :
    (run ⟨false, false⟩ e2eWorld).1
      = .ok (final_status (run_submodule_tests e2eWorld.exec e2eWorld.modules) true) :=
  reporter_totals_and_exit.2.1 ⟨false, false⟩ e2eWorld true 1 rfl rfl rfl rfl rfl rfl

end JobPlatform
